import Mathlib

/-!
Verification of the go-news notification relay (src/src/main.rs) against its
natural-language specification.  The development shallowly embeds the data
model and the reconciliation tick `check_for_updates`, the startup/config
reads of `run_checker` and `main`, the timestamp formatting (chrono RFC-2822
parsing composed with serenity `Timestamp::from_unix_timestamp`), and the
timer schedule of the checker loop.
-/

namespace GoNews

/-- Feed item as decoded from the backend JSON (`struct RssItem`, main.rs lines 26-33). -/
structure RssItem where
  title : String
  link : String
  description : String
  pub_date : String
  posted : Bool
deriving Repr, DecidableEq

/-! ### Model of chrono `DateTime::parse_from_rfc2822` and `timestamp()`

`check_for_updates` (main.rs lines 127-133) parses `item.pub_date` with
`chrono::DateTime::parse_from_rfc2822` and immediately converts the result to
Unix seconds with `.timestamp()`.  The model below reproduces chrono's
RFC-2822 parser (format/parse.rs, `parse_rfc2822`) on that composition:
optional day-of-week plus comma, 1-2 digit day, 3-letter month name,
year of two or more digits with the RFC's two/three-digit-year adjustment,
HH:MM with optional :SS, and a mandatory timezone (numeric `±HHMM` or an
obsolete zone name).  Folded comments (CFWS) in the input are not modelled.
-/

/-- Whitespace characters relevant to these date strings (`str::trim_start`). -/
def isWsChar (c : Char) : Bool := c == ' ' || c == '\t' || c == '\n' || c == '\r'

/-- Skip any leading whitespace (`str::trim_start`). -/
def trimL (cs : List Char) : List Char := cs.dropWhile isWsChar

/-- chrono `scan::space`: require at least one whitespace character, then skip the rest. -/
def space1 : List Char → Option (List Char)
  | [] => none
  | c :: rest => if isWsChar c then some (trimL rest) else none

/-- Take at most `n` leading ASCII digits. -/
def takeDigitsUpTo : Nat → List Char → (List Char × List Char)
  | 0, cs => ([], cs)
  | _ + 1, [] => ([], [])
  | n + 1, c :: cs =>
    if c.isDigit then
      let p := takeDigitsUpTo n cs
      (c :: p.1, p.2)
    else ([], c :: cs)

/-- Numeric value of a digit string. -/
def digitsVal (ds : List Char) : Nat := ds.foldl (fun a c => a * 10 + (c.toNat - 48)) 0

/-- chrono `scan::number` with a minimum and a maximum digit count; fails on fewer
than `minD` digits and on overflow past `i64::MAX`. -/
def scanNumber (minD maxD : Nat) (cs : List Char) : Option (Nat × List Char) :=
  let p := takeDigitsUpTo maxD cs
  if p.1.length < minD then none
  else
    let v := digitsVal p.1
    if v ≤ 9223372036854775807 then some (v, p.2) else none

/-- chrono `scan::short_month0`: case-insensitive three-letter month name, 1-12. -/
def month3 : List Char → Option (Nat × List Char)
  | a :: b :: c :: rest =>
    let k := String.mk [a.toLower, b.toLower, c.toLower]
    if k = "jan" then some (1, rest)
    else if k = "feb" then some (2, rest)
    else if k = "mar" then some (3, rest)
    else if k = "apr" then some (4, rest)
    else if k = "may" then some (5, rest)
    else if k = "jun" then some (6, rest)
    else if k = "jul" then some (7, rest)
    else if k = "aug" then some (8, rest)
    else if k = "sep" then some (9, rest)
    else if k = "oct" then some (10, rest)
    else if k = "nov" then some (11, rest)
    else if k = "dec" then some (12, rest)
    else none
  | _ => none

/-- chrono `scan::short_weekday`: case-insensitive three-letter day name, Mon = 0 .. Sun = 6. -/
def weekday3 : List Char → Option (Nat × List Char)
  | a :: b :: c :: rest =>
    let k := String.mk [a.toLower, b.toLower, c.toLower]
    if k = "mon" then some (0, rest)
    else if k = "tue" then some (1, rest)
    else if k = "wed" then some (2, rest)
    else if k = "thu" then some (3, rest)
    else if k = "fri" then some (4, rest)
    else if k = "sat" then some (5, rest)
    else if k = "sun" then some (6, rest)
    else none
  | _ => none

/-- Take the leading run of ASCII letters. -/
def takeAlpha : List Char → (List Char × List Char)
  | [] => ([], [])
  | c :: cs =>
    if c.isAlpha then
      let p := takeAlpha cs
      (c :: p.1, p.2)
    else ([], c :: cs)

/-- chrono `scan::timezone_offset_2822`: a numeric `±HHMM` offset always yields a
known offset; the RFC 2822 obsolete zone names with known offsets are mapped;
any other alphabetic zone name means the offset is unknown (`-0000`), which makes
`parse_from_rfc2822` fail downstream. -/
def zoneOffset2822 : List Char → Option (Option Int × List Char)
  | [] => none
  | c :: cs =>
    if c.isAlpha then
      let p := takeAlpha (c :: cs)
      let k := String.mk (p.1.map Char.toLower)
      if k = "ut" ∨ k = "gmt" then some (some 0, p.2)
      else if k = "edt" then some (some (-4 * 3600), p.2)
      else if k = "est" ∨ k = "cdt" then some (some (-5 * 3600), p.2)
      else if k = "cst" ∨ k = "mdt" then some (some (-6 * 3600), p.2)
      else if k = "mst" ∨ k = "pdt" then some (some (-7 * 3600), p.2)
      else if k = "pst" then some (some (-8 * 3600), p.2)
      else some (none, p.2)
    else if c = '+' ∨ c = '-' then
      match scanNumber 4 4 cs with
      | some (v, rest) =>
        let hh : Int := (v / 100 : Nat)
        let mm : Int := (v % 100 : Nat)
        let mag : Int := hh * 3600 + mm * 60
        some (some (if c = '+' then mag else -mag), rest)
      | none => none
    else none

/-- Optional `day-of-week ","` prefix; a recognised day name must be followed by a comma. -/
def parseOptWeekday (cs : List Char) : Option (Option Nat × List Char) :=
  match weekday3 cs with
  | some (w, rest) =>
    match trimL rest with
    | ',' :: rest2 => some (some w, trimL rest2)
    | _ => none
  | none => some (none, cs)

/-- Mandatory colon surrounded by optional whitespace. -/
def expectColon (cs : List Char) : Option (List Char) :=
  match trimL cs with
  | ':' :: r => some (trimL r)
  | _ => none

/-- Optional `":" seconds` suffix of the time; absent seconds default to 0. -/
def parseOptSeconds (cs : List Char) : Option (Nat × List Char) :=
  match trimL cs with
  | ':' :: r =>
    match scanNumber 2 2 (trimL r) with
    | some (sec, r2) => some (sec, r2)
    | none => none
  | _ => some (0, cs)

/-- Proleptic-Gregorian leap-year test. -/
def isLeapYear (y : Int) : Bool := y % 4 == 0 && (y % 100 != 0 || y % 400 == 0)

/-- Number of days in a month (1-12) of a year. -/
def daysInMonth (y : Int) (m : Nat) : Nat :=
  match m with
  | 1 => 31
  | 2 => if isLeapYear y then 29 else 28
  | 3 => 31
  | 4 => 30
  | 5 => 31
  | 6 => 30
  | 7 => 31
  | 8 => 31
  | 9 => 30
  | 10 => 31
  | 11 => 30
  | 12 => 31
  | _ => 0

/-- Days since 1970-01-01 of a proleptic-Gregorian calendar date (the standard
civil-from-days correspondence; `/` and `%` on `Int` are floor-style here). -/
def days_from_civil (y m d : Int) : Int :=
  let yAdj := if m ≤ 2 then y - 1 else y
  let era := yAdj / 400
  let yoe := yAdj - era * 400
  let mp := (m + 9) % 12
  let doy := (153 * mp + 2) / 5 + d - 1
  let doe := yoe * 365 + yoe / 4 - yoe / 100 + doy
  era * 146097 + doe - 719468

/-- Unix seconds of a date-time with a fixed offset; a leap second (:60) counts as
second 59, as in chrono's timestamp computation. -/
def instantOf (days : Int) (hour minute second : Nat) (off : Int) : Int :=
  days * 86400 + (hour : Int) * 3600 + (minute : Int) * 60 + (min second 59 : Nat) - off

/-- Fields scanned from an RFC 2822 date-time string, before validity checks. -/
structure Rfc2822Fields where
  wd : Option Nat
  day : Nat
  mon : Nat
  year : Int
  hour : Nat
  minute : Nat
  second : Nat
  off : Int
deriving Repr, DecidableEq

/-- chrono's two/three-digit-year adjustment, keyed on the digit count scanned. -/
def adjustYear (ylen yraw : Nat) : Int :=
  if ylen == 2 && yraw ≤ 49 then (yraw : Int) + 2000
  else if ylen == 2 then (yraw : Int) + 1900
  else if ylen == 3 then (yraw : Int) + 1900
  else (yraw : Int)

/-- Scan `day month` followed by mandatory whitespace on each side. -/
def scanDayMonth (cs : List Char) : Option (Nat × Nat × List Char) :=
  match scanNumber 1 2 cs with
  | none => none
  | some (day, cs1) =>
    match space1 cs1 with
    | none => none
    | some cs2 =>
      match month3 cs2 with
      | none => none
      | some (mon, cs3) =>
        match space1 cs3 with
        | none => none
        | some cs4 => some (day, mon, cs4)

/-- Scan the year: two or more digits, with the short-year adjustment. -/
def scanYear (cs : List Char) : Option (Int × List Char) :=
  match scanNumber 2 cs.length cs with
  | none => none
  | some (yraw, rest) => some (adjustYear (cs.length - rest.length) yraw, rest)

/-- Scan mandatory whitespace then `HH:MM` with optional `:SS`. -/
def scanTime (cs : List Char) : Option (Nat × Nat × Nat × List Char) :=
  match space1 cs with
  | none => none
  | some cs0 =>
    match scanNumber 2 2 cs0 with
    | none => none
    | some (hour, cs1) =>
      match expectColon cs1 with
      | none => none
      | some cs2 =>
        match scanNumber 2 2 cs2 with
        | none => none
        | some (minute, cs3) =>
          match parseOptSeconds cs3 with
          | none => none
          | some (second, cs4) => some (hour, minute, second, cs4)

/-- Scan mandatory whitespace then a timezone with a known offset. -/
def scanZone (cs : List Char) : Option (Int × List Char) :=
  match space1 cs with
  | none => none
  | some cs0 =>
    match zoneOffset2822 cs0 with
    | none => none
    | some (none, _) => none
    | some (some off, cs1) => some (off, cs1)

/-- Scan a whole RFC 2822 date-time string into its fields; fails on trailing input. -/
def scanRfc2822 (cs : List Char) : Option Rfc2822Fields :=
  match parseOptWeekday (trimL cs) with
  | none => none
  | some (wd, cs1) =>
    match scanDayMonth cs1 with
    | none => none
    | some (day, mon, cs2) =>
      match scanYear cs2 with
      | none => none
      | some (year, cs3) =>
        match scanTime cs3 with
        | none => none
        | some (hour, minute, second, cs4) =>
          match scanZone cs4 with
          | none => none
          | some (off, cs5) =>
            if (trimL cs5).isEmpty then some ⟨wd, day, mon, year, hour, minute, second, off⟩
            else none

/-- chrono's validity checks (`Parsed::to_datetime`): offset magnitude below one
day, year within chrono's range, a real calendar day, time fields in range
(second 60 allowed as a leap second), and an explicit day-of-week consistent
with the date (day 0 since epoch being a Thursday). -/
def fieldsValid (f : Rfc2822Fields) : Bool :=
  (-86400 < f.off && f.off < 86400) &&
  (-262144 ≤ f.year && f.year ≤ 262143) &&
  (1 ≤ f.day && f.day ≤ daysInMonth f.year f.mon) &&
  (f.hour ≤ 23 && f.minute ≤ 59 && f.second ≤ 60) &&
  (match f.wd with
   | some w => (days_from_civil f.year (f.mon : Int) (f.day : Int) + 3) % 7 == (w : Int)
   | none => true)

/-- Model of `chrono::DateTime::parse_from_rfc2822` composed with `.timestamp()`:
parse an RFC 2822 date-time string and return the denoted instant in Unix
seconds, or `none` when chrono would return a parse error. -/
def parse_from_rfc2822 (s : String) : Option Int :=
  match scanRfc2822 s.data with
  | none => none
  | some f =>
    if fieldsValid f then
      some (instantOf (days_from_civil f.year (f.mon : Int) (f.day : Int))
              f.hour f.minute f.second f.off)
    else none

/-! ### Serenity timestamp and the delivery formatter -/

/-- Smallest Unix second representable by serenity's `Timestamp`
(`time::OffsetDateTime`, year -9999). -/
def timestampMinSecs : Int := 86400 * days_from_civil (-9999) 1 1

/-- Largest Unix second representable by serenity's `Timestamp`
(`time::OffsetDateTime`, year 9999). -/
def timestampMaxSecs : Int := 86400 * days_from_civil 9999 12 31 + 86399

/-- A chat message timestamp: a concrete instant in Unix seconds, or the current
wall-clock time `Timestamp::now()`, kept symbolic. -/
inductive Timestamp where
  | instant (secs : Int)
  | now
deriving Repr, DecidableEq

/-- serenity `Timestamp::from_unix_timestamp`: succeeds exactly on instants
representable by the underlying `OffsetDateTime`, otherwise returns an error. -/
def Timestamp.from_unix_timestamp (secs : Int) : Option Timestamp :=
  if timestampMinSecs ≤ secs ∧ secs ≤ timestampMaxSecs then some (.instant secs) else none

/-- Timestamp selection of `check_for_updates` (main.rs lines 127-133): parse
`pub_date` as RFC 2822; on success convert the Unix seconds with
`Timestamp::from_unix_timestamp`, falling back to `Timestamp::now()` when that
errors; on parse failure fall back to `Timestamp::now()`. -/
def itemTimestamp (pub_date : String) : Timestamp :=
  match parse_from_rfc2822 pub_date with
  | some ts =>
    match Timestamp.from_unix_timestamp ts with
    | some t => t
    | none => Timestamp.now
  | none => Timestamp.now

/-- The embed built for one item (main.rs lines 135-140). -/
structure CreateEmbed where
  title : String
  url : String
  description : String
  timestamp : Timestamp
  color : Nat
deriving Repr, DecidableEq

/-- Formatting of one feed item into its embed (main.rs lines 127-140). -/
def formatItem (item : RssItem) : CreateEmbed :=
  { title := item.title
    url := item.link
    description := item.description
    timestamp := itemTimestamp item.pub_date
    color := 0x00FF00 }

/-! ### One reconciliation tick: `check_for_updates`

The tick's interaction with the outside world is captured by a `TickEnv`:
the outcome of the GET on `/items/unposted` (transport error, or an HTTP
status together with what decoding the body as `Vec<RssItem>` would yield),
the outcome of each Discord `send_message` call in attempt order, and the
outcome of the POST on `/items/mark-posted` should it be issued.  The tick
itself is then a pure function from this environment to its result and its
observable trace (send attempts, mark-posted payloads, log lines). -/

/-- Outcome of the fetch request: `send().await` fails, or a response arrives
with a status and a body that decodes to `some items` or fails to decode. -/
inductive FetchOutcome where
  | transportError
  | response (status : Nat) (decoded : Option (List RssItem))

/-- Outcome of the mark-posted request, when issued. -/
inductive PostOutcome where
  | transportError
  | response (status : Nat)

/-- Environment of one tick. -/
structure TickEnv where
  fetch : FetchOutcome
  sendOk : Nat → Bool
  markPosted : PostOutcome

/-- reqwest `StatusCode::is_success`: 2xx. -/
def statusIsSuccess (s : Nat) : Bool := 200 ≤ s && s < 300

/-- The errors `check_for_updates` can return (via `?` or the explicit
status-check `return Err`). -/
inductive TickError where
  | fetchTransport
  | fetchBadStatus (status : Nat)
  | decodeError
  | markPostedTransport
deriving Repr, DecidableEq

/-- Log lines emitted inside `check_for_updates`. -/
inductive LogEvent where
  | infoNoNewItems
  | infoFoundItems (n : Nat)
  | infoPosting (title : String)
  | errorSendFailed (title : String)
  | infoMarkedPosted (n : Nat)
  | errorMarkPostedFailed (status : Nat)
deriving Repr, DecidableEq

/-- Trace of the per-item delivery loop (main.rs lines 122-159). -/
structure DeliveryTrace where
  attempts : List (CreateEmbed × Bool)
  postedLinks : List String
  log : List LogEvent
deriving Repr, DecidableEq

/-- The delivery loop from send attempt number `i` on: format each item, attempt
the send, collect the link on success, log the failure otherwise. -/
def deliverFrom (sendOk : Nat → Bool) : Nat → List RssItem → DeliveryTrace
  | _, [] => { attempts := [], postedLinks := [], log := [] }
  | i, item :: rest =>
    let embed := formatItem item
    let ok := sendOk i
    let tail := deliverFrom sendOk (i + 1) rest
    { attempts := (embed, ok) :: tail.attempts
      postedLinks := if ok then item.link :: tail.postedLinks else tail.postedLinks
      log := (LogEvent.infoPosting item.title ::
              (if ok then [] else [LogEvent.errorSendFailed item.title])) ++ tail.log }

/-- Result and observable trace of one tick. -/
structure TickResult where
  result : Except TickError Unit
  attempts : List (CreateEmbed × Bool)
  markPostedCalls : List (List String)
  log : List LogEvent

/-- Shallow embedding of `check_for_updates` (main.rs lines 99-180): fetch the
unposted items, bail out on transport error, non-2xx status or decode failure;
return early on an empty list; otherwise deliver every item in order, then POST
the collected links to mark-posted only when some send succeeded, propagating
only a transport error of that POST and merely logging a non-2xx status. -/
def check_for_updates (env : TickEnv) : TickResult :=
  match env.fetch with
  | FetchOutcome.transportError =>
    { result := Except.error TickError.fetchTransport
      attempts := [], markPostedCalls := [], log := [] }
  | FetchOutcome.response status decoded =>
    if statusIsSuccess status = false then
      { result := Except.error (TickError.fetchBadStatus status)
        attempts := [], markPostedCalls := [], log := [] }
    else
      match decoded with
      | none =>
        { result := Except.error TickError.decodeError
          attempts := [], markPostedCalls := [], log := [] }
      | some items =>
        if items.isEmpty then
          { result := Except.ok ()
            attempts := [], markPostedCalls := [], log := [LogEvent.infoNoNewItems] }
        else
          let d := deliverFrom env.sendOk 0 items
          let baseLog := LogEvent.infoFoundItems items.length :: d.log
          if d.postedLinks.isEmpty then
            { result := Except.ok ()
              attempts := d.attempts, markPostedCalls := [], log := baseLog }
          else
            match env.markPosted with
            | PostOutcome.transportError =>
              { result := Except.error TickError.markPostedTransport
                attempts := d.attempts, markPostedCalls := [d.postedLinks], log := baseLog }
            | PostOutcome.response st =>
              { result := Except.ok ()
                attempts := d.attempts, markPostedCalls := [d.postedLinks]
                log := baseLog ++
                  [if statusIsSuccess st then LogEvent.infoMarkedPosted d.postedLinks.length
                   else LogEvent.errorMarkPostedFailed st] }

/-- What `run_checker`'s loop body logs about the tick result (main.rs lines 88-91). -/
inductive CheckerLog where
  | infoCheckCompleted
  | errorDuringCheck (e : TickError)
deriving Repr, DecidableEq

/-- Log of one iteration of `run_checker`'s loop around `check_for_updates`. -/
def run_checker_tick_log (env : TickEnv) : List CheckerLog :=
  match (check_for_updates env).result with
  | Except.ok _ => [CheckerLog.infoCheckCompleted]
  | Except.error e => [CheckerLog.errorDuringCheck e]

/-- Links of exactly the items whose send succeeded, in the order the items were
attempted (spec section 8); stated independently of the loop, over the indexed
item list, for comparison with the trace of `check_for_updates`. -/
def successfulLinks (sendOk : Nat → Bool) (items : List RssItem) : List String :=
  (items.enum.filter fun p => sendOk p.1).map fun p => p.2.link

/-! ### Startup, configuration reads and the checker timer -/

/-- Rust `str::parse::<u64>`: an optional leading plus sign, one or more ASCII
digits, and the value must fit in 64 bits. -/
def parse_u64 (s : String) : Option Nat :=
  let ds := match s.data with
    | '+' :: rest => rest
    | l => l
  if ds.isEmpty then none
  else if ds.all Char.isDigit then
    let v := digitsVal ds
    if v < 2 ^ 64 then some v else none
  else none

/-- The environment variables the program reads. -/
structure ProcessEnv where
  discord_token : Option String
  channel_id : Option String
  backend_api_url : Option String
  check_interval_seconds : Option String

/-- Outcome of the configuration reads at the top of `run_checker`
(main.rs lines 61-73): each `expect` (and serenity `ChannelId::new` on zero)
panics the task, otherwise the parsed configuration is returned.
`CHECK_INTERVAL_SECONDS` defaults to 60 when absent. -/
inductive CheckerConfig where
  | panicked
  | ok (channelId : Nat) (apiUrl : String) (intervalSeconds : Nat)
deriving Repr, DecidableEq

/-- Configuration loading of `run_checker` (main.rs lines 61-76). -/
def run_checker_config (e : ProcessEnv) : CheckerConfig :=
  match e.channel_id with
  | none => CheckerConfig.panicked
  | some s =>
    match parse_u64 s with
    | none => CheckerConfig.panicked
    | some cid =>
      if cid == 0 then CheckerConfig.panicked
      else
        match e.backend_api_url with
        | none => CheckerConfig.panicked
        | some url =>
          match parse_u64 (e.check_interval_seconds.getD "60") with
          | none => CheckerConfig.panicked
          | some n => CheckerConfig.ok cid url n

/-- Events of process startup, in order: `main` reads `DISCORD_TOKEN` (panicking
when absent), the gateway client starts (the event loop), the `ready` event
fires once connected, the checker task is spawned and loads its configuration
(panicking that task on bad values), and otherwise enters its periodic loop. -/
inductive StartupEvent where
  | readDiscordToken
  | mainPanicked
  | enterEventLoop
  | readyFired
  | spawnChecker
  | checkerConfigPanicked
  | checkerLoopEntered
deriving Repr, DecidableEq

/-- Startup event trace of the process (main.rs lines 44-55 and 185-214),
given the environment and whether the gateway reaches the ready event. -/
def startup_trace (e : ProcessEnv) (gatewayReady : Bool) : List StartupEvent :=
  match e.discord_token with
  | none => [StartupEvent.readDiscordToken, StartupEvent.mainPanicked]
  | some _ =>
    [StartupEvent.readDiscordToken, StartupEvent.enterEventLoop] ++
    (if gatewayReady then
      [StartupEvent.readyFired, StartupEvent.spawnChecker] ++
      (match run_checker_config e with
       | CheckerConfig.panicked => [StartupEvent.checkerConfigPanicked]
       | CheckerConfig.ok _ _ _ => [StartupEvent.checkerLoopEntered])
     else [])

/-- Completion times of the `interval.tick().await` calls at the top of
`run_checker`'s loop (main.rs lines 76-85), from `tokio::time::interval`
semantics: the first tick completes immediately when the timer is created at
`start`, and each later tick one `period` after the previous one. -/
def checker_tick_time (start period n : Nat) : Nat := start + period * n

/-! ### Concrete inputs used to witness or refute the claims -/

/-- Sample item with a well-formed RFC 2822 publish date. -/
def itemW1 : RssItem :=
  { title := "Title one", link := "https://example.org/a", description := "d1"
    pub_date := "Wed, 02 Oct 2024 15:00:00 +0000", posted := false }

/-- Sample item with an unparseable publish date. -/
def itemW2 : RssItem :=
  { title := "Title two", link := "https://example.org/b", description := "d2"
    pub_date := "bad date", posted := false }

/-- Sample item with a named-zone publish date. -/
def itemW3 : RssItem :=
  { title := "Title three", link := "https://example.org/c", description := "d3"
    pub_date := "Wed, 18 Feb 2015 23:16:09 GMT", posted := false }

/-- Tick environment: three items fetched, the second send fails, ack succeeds. -/
def envC1 : TickEnv :=
  { fetch := FetchOutcome.response 200 (some [itemW1, itemW2, itemW3])
    sendOk := fun n => n != 1
    markPosted := PostOutcome.response 200 }

/-- Tick environment: one item fetched and delivered, mark-posted answers 500. -/
def envC2 : TickEnv :=
  { fetch := FetchOutcome.response 200 (some [itemW1])
    sendOk := fun _ => true
    markPosted := PostOutcome.response 500 }

/-- Process environment with a Discord token but no `CHANNEL_ID`. -/
def procEnvC3 : ProcessEnv :=
  { discord_token := some "token-value"
    channel_id := none
    backend_api_url := some "http://127.0.0.1:8080"
    check_interval_seconds := none }

/-- Tick environment whose fetch request fails at the transport level. -/
def envC6 : TickEnv :=
  { fetch := FetchOutcome.transportError
    sendOk := fun _ => true
    markPosted := PostOutcome.response 200 }

/-- Tick environment: three items fetched, only the second send fails. -/
def envC7 : TickEnv := envC1

/-- Tick environment: the fetch returns 200 with an empty item array. -/
def envC8 : TickEnv :=
  { fetch := FetchOutcome.response 200 (some [])
    sendOk := fun _ => true
    markPosted := PostOutcome.response 200 }

/-- Tick environment: the fetch returns 404 with a body that would not decode. -/
def envC9 : TickEnv :=
  { fetch := FetchOutcome.response 404 none
    sendOk := fun _ => true
    markPosted := PostOutcome.response 200 }

/-! ### Lemmas about the delivery loop -/

theorem deliverFrom_attempts (s : Nat → Bool) (items : List RssItem) (i : Nat) :
    (deliverFrom s i items).attempts =
      (items.enumFrom i).map fun p => (formatItem p.2, s p.1) := by
  induction items generalizing i with
  | nil => rfl
  | cons a rest ih => simp [deliverFrom, List.enumFrom, ih]

theorem deliverFrom_attempts_fst (s : Nat → Bool) (items : List RssItem) (i : Nat) :
    (deliverFrom s i items).attempts.map Prod.fst = items.map formatItem := by
  induction items generalizing i with
  | nil => rfl
  | cons a rest ih => simp [deliverFrom, ih]

theorem deliverFrom_postedLinks (s : Nat → Bool) (items : List RssItem) (i : Nat) :
    (deliverFrom s i items).postedLinks =
      ((items.enumFrom i).filter fun p => s p.1).map fun p => p.2.link := by
  induction items generalizing i with
  | nil => rfl
  | cons a rest ih =>
    cases h : s i with
    | true => simp [deliverFrom, List.enumFrom, List.filter_cons, h, ih]
    | false => simp [deliverFrom, List.enumFrom, List.filter_cons, h, ih]

theorem deliverFrom_log_sendFailed (s : Nat → Bool) (items : List RssItem) (i j : Nat)
    (hj : j < items.length) (hfail : s (i + j) = false) :
    LogEvent.errorSendFailed (items.get ⟨j, hj⟩).title ∈ (deliverFrom s i items).log := by
  induction items generalizing i j with
  | nil => simp at hj
  | cons a rest ih =>
    cases j with
    | zero =>
      have h0 : s i = false := by simpa using hfail
      simp [deliverFrom, h0]
    | succ j2 =>
      have h2 : s ((i + 1) + j2) = false := by
        have he : (i + 1) + j2 = i + (j2 + 1) := by omega
        rw [he]; exact hfail
      have hj2 : j2 < rest.length := by simpa using hj
      have hmem := ih (i + 1) j2 hj2 h2
      simp only [deliverFrom, List.get, List.mem_append, List.mem_cons]
      right
      exact hmem

theorem check_markPostedCalls_flatten (env : TickEnv) (status : Nat) (items : List RssItem)
    (hf : env.fetch = FetchOutcome.response status (some items))
    (hs : statusIsSuccess status = true) :
    (check_for_updates env).markPostedCalls.flatten =
      (deliverFrom env.sendOk 0 items).postedLinks := by
  cases hi : items.isEmpty with
  | true =>
    have h0 : items = [] := by simpa using hi
    subst h0
    simp [check_for_updates, hf, hs, deliverFrom]
  | false =>
    cases hp : (deliverFrom env.sendOk 0 items).postedLinks.isEmpty with
    | true =>
      have h1 : (deliverFrom env.sendOk 0 items).postedLinks = [] := by simpa using hp
      simp [check_for_updates, hf, hs, hi, hp, h1]
    | false =>
      cases hmp : env.markPosted with
      | transportError => simp [check_for_updates, hf, hs, hi, hp, hmp]
      | response st => simp [check_for_updates, hf, hs, hi, hp, hmp]

theorem check_attempts_fst (env : TickEnv) (status : Nat) (items : List RssItem)
    (hf : env.fetch = FetchOutcome.response status (some items))
    (hs : statusIsSuccess status = true) :
    (check_for_updates env).attempts.map Prod.fst = items.map formatItem := by
  cases hi : items.isEmpty with
  | true =>
    have h0 : items = [] := by simpa using hi
    subst h0
    simp [check_for_updates, hf, hs]
  | false =>
    cases hp : (deliverFrom env.sendOk 0 items).postedLinks.isEmpty with
    | true => simp [check_for_updates, hf, hs, hi, hp, deliverFrom_attempts_fst]
    | false =>
      cases hmp : env.markPosted with
      | transportError => simp [check_for_updates, hf, hs, hi, hp, hmp, deliverFrom_attempts_fst]
      | response st => simp [check_for_updates, hf, hs, hi, hp, hmp, deliverFrom_attempts_fst]

theorem check_attempts_eq (env : TickEnv) (status : Nat) (items : List RssItem)
    (hf : env.fetch = FetchOutcome.response status (some items))
    (hs : statusIsSuccess status = true) :
    (check_for_updates env).attempts = (deliverFrom env.sendOk 0 items).attempts := by
  cases hi : items.isEmpty with
  | true =>
    have h0 : items = [] := by simpa using hi
    subst h0
    simp [check_for_updates, hf, hs, deliverFrom]
  | false =>
    cases hp : (deliverFrom env.sendOk 0 items).postedLinks.isEmpty with
    | true => simp [check_for_updates, hf, hs, hi, hp]
    | false =>
      cases hmp : env.markPosted with
      | transportError => simp [check_for_updates, hf, hs, hi, hp, hmp]
      | response st => simp [check_for_updates, hf, hs, hi, hp, hmp]

theorem check_log_of_deliver_log (env : TickEnv) (status : Nat) (items : List RssItem)
    (hf : env.fetch = FetchOutcome.response status (some items))
    (hs : statusIsSuccess status = true) (hne : items.isEmpty = false) (x : LogEvent)
    (hx : x ∈ (deliverFrom env.sendOk 0 items).log) :
    x ∈ (check_for_updates env).log := by
  cases hp : (deliverFrom env.sendOk 0 items).postedLinks.isEmpty with
  | true => simp [check_for_updates, hf, hs, hne, hp, hx]
  | false =>
    cases hmp : env.markPosted with
    | transportError => simp [check_for_updates, hf, hs, hne, hp, hmp, hx]
    | response st => simp [check_for_updates, hf, hs, hne, hp, hmp, hx]


/-! ### Claim C1 -/

/-- C1: for every tick whose fetch returns a non-empty sequence of items, the
sequence of links sent to mark-posted is exactly the links of those input items
whose chat send succeeded, in the order the items were attempted — which is the
order the backend returned them. -/
theorem C1_mark_posted_links_exact (env : TickEnv) (status : Nat) (items : List RssItem)
    (hf : env.fetch = FetchOutcome.response status (some items))
    (hs : statusIsSuccess status = true) (hne : items ≠ []) :
    (check_for_updates env).markPostedCalls.flatten = successfulLinks env.sendOk items ∧
    (check_for_updates env).attempts.map Prod.fst = items.map formatItem := by
  refine ⟨?_, check_attempts_fst env status items hf hs⟩
  rw [check_markPostedCalls_flatten env status items hf hs, deliverFrom_postedLinks]
  rfl

/-- C1 witness at a concrete tick: three items, the second send failing. -/
theorem C1_witness :
    (check_for_updates envC1).markPostedCalls.flatten =
      successfulLinks envC1.sendOk [itemW1, itemW2, itemW3] ∧
    (check_for_updates envC1).attempts.map Prod.fst = [itemW1, itemW2, itemW3].map formatItem :=
  C1_mark_posted_links_exact envC1 200 [itemW1, itemW2, itemW3] rfl (by decide)
    (List.cons_ne_nil _ _)

/-! ### Claim C2 -/

/-- C2 counterexample: with one fetched item whose send succeeds and a mark-posted
response of 500 (non-2xx), `check_for_updates` returns `Ok(())` — the failure is
only logged, not surfaced as an error to the caller — refuting the claim that
the tick's reconciliation function returns an error carrying the HTTP status. -/
theorem C2_counterexample :
    (check_for_updates envC2).markPostedCalls = [["https://example.org/a"]] ∧
    statusIsSuccess 500 = false ∧
    (check_for_updates envC2).result = Except.ok () ∧
    LogEvent.errorMarkPostedFailed 500 ∈ (check_for_updates envC2).log := by
  refine ⟨rfl, rfl, rfl, by decide⟩

/-- C2 amended: when the mark-posted POST completes with a non-2xx status, the
failure is logged with the status code but `check_for_updates` still returns
`Ok(())`; already-sent chat messages are not rolled back (the delivery trace is
the full formatted item list regardless). -/
theorem C2_amended_ack_failure_logged_not_returned (env : TickEnv) (status st : Nat)
    (items : List RssItem)
    (hf : env.fetch = FetchOutcome.response status (some items))
    (hs : statusIsSuccess status = true)
    (hmp : env.markPosted = PostOutcome.response st)
    (hbad : statusIsSuccess st = false) :
    (check_for_updates env).result = Except.ok () ∧
    ((check_for_updates env).markPostedCalls ≠ [] →
      LogEvent.errorMarkPostedFailed st ∈ (check_for_updates env).log) ∧
    (check_for_updates env).attempts.map Prod.fst = items.map formatItem := by
  refine ⟨?_, ?_, check_attempts_fst env status items hf hs⟩ <;>
  · cases hi : items.isEmpty with
    | true => simp [check_for_updates, hf, hs, hi]
    | false =>
      cases hp : (deliverFrom env.sendOk 0 items).postedLinks.isEmpty with
      | true => simp [check_for_updates, hf, hs, hi, hp]
      | false => simp [check_for_updates, hf, hs, hi, hp, hmp, hbad]

/-- C2 witness for the amended claim at the concrete 500-status environment. -/
theorem C2_witness :
    (check_for_updates envC2).result = Except.ok () ∧
    ((check_for_updates envC2).markPostedCalls ≠ [] →
      LogEvent.errorMarkPostedFailed 500 ∈ (check_for_updates envC2).log) ∧
    (check_for_updates envC2).attempts.map Prod.fst = [itemW1].map formatItem :=
  C2_amended_ack_failure_logged_not_returned envC2 200 500 [itemW1] rfl (by decide) rfl
    (by decide)

/-! ### Claim C4 -/

/-- C4 counterexample: with the checker task started at time 0 and a 60-second
interval, the first `interval.tick()` completes at time 0, not at time 60 —
refuting the claim that the first tick fires only after one full interval. -/
theorem C4_counterexample :
    checker_tick_time 0 60 0 = 0 ∧ checker_tick_time 0 60 0 ≠ 0 + 60 := by decide

/-- C4 amended: the first tick of run_checker's loop completes immediately when
the checker task creates its interval timer; each subsequent tick completes one
full configured interval after the previous one. -/
theorem C4_amended_first_tick_immediate (start period n : Nat) :
    checker_tick_time start period 0 = start ∧
    checker_tick_time start period (n + 1) = checker_tick_time start period n + period := by
  constructor
  · simp [checker_tick_time]
  · simp [checker_tick_time, Nat.mul_succ]
    omega

/-! ### Claim C5 -/

/-- C5 counterexample: `"01 Jan 99999 00:00:00 +0000"` parses successfully as
RFC 2822 (chrono accepts years with more than four digits) to an instant beyond
the chat timestamp range, yet the formatter produces `Timestamp::now()` rather
than the parsed instant — refuting "parsed instant whenever parsing succeeds". -/
theorem C5_counterexample :
    parse_from_rfc2822 "01 Jan 99999 00:00:00 +0000" = some 3093496444800 ∧
    itemTimestamp "01 Jan 99999 00:00:00 +0000" = Timestamp.now ∧
    Timestamp.now ≠ Timestamp.instant 3093496444800 := by
  refine ⟨by decide, by decide, by decide⟩

/-- C5 amended: the formatter sets the message timestamp to the parsed instant
when RFC-2822 parsing succeeds AND the instant is representable by the chat
timestamp type; on parse failure (and likewise for unrepresentable instants) it
silently substitutes the current wall-clock time, raising no error. -/
theorem C5_amended_timestamp_parsed_or_now (pd : String) (t : Int) :
    (parse_from_rfc2822 pd = some t → timestampMinSecs ≤ t → t ≤ timestampMaxSecs →
      itemTimestamp pd = Timestamp.instant t) ∧
    (parse_from_rfc2822 pd = none → itemTimestamp pd = Timestamp.now) := by
  constructor
  · intro hp h1 h2
    simp [itemTimestamp, hp, Timestamp.from_unix_timestamp, h1, h2]
  · intro hp
    simp [itemTimestamp, hp]

/-- C5 witness at the two concrete dates named by the spec. -/
theorem C5_witness :
    itemTimestamp "Wed, 02 Oct 2024 15:00:00 +0000" = Timestamp.instant 1727881200 ∧
    itemTimestamp "not-a-date" = Timestamp.now :=
  ⟨(C5_amended_timestamp_parsed_or_now "Wed, 02 Oct 2024 15:00:00 +0000" 1727881200).1
      (by decide) (by decide) (by decide),
   (C5_amended_timestamp_parsed_or_now "not-a-date" 0).2 (by decide)⟩

/-! ### Claim C3 -/

/-- C3 counterexample: with `DISCORD_TOKEN` present but `CHANNEL_ID` absent, the
configuration is invalid yet the process does enter the event loop; the missing
variable is only discovered inside the checker task, spawned after the ready
event, where it panics that task — refuting "the process exits before entering
the event loop" for every missing required configuration value. -/
theorem C3_counterexample :
    run_checker_config procEnvC3 = CheckerConfig.panicked ∧
    StartupEvent.enterEventLoop ∈ startup_trace procEnvC3 true ∧
    StartupEvent.mainPanicked ∉ startup_trace procEnvC3 true ∧
    StartupEvent.checkerConfigPanicked ∈ startup_trace procEnvC3 true := by decide

/-- C3 amended: only a missing `DISCORD_TOKEN` aborts the process before the
event loop; a missing or non-numeric `CHANNEL_ID`, missing `BACKEND_API_URL`, or
non-integer `CHECK_INTERVAL_SECONDS` panics the checker task, which starts only
after the gateway ready event — i.e. after the event loop has been entered. -/
theorem C3_amended_config_panic_location (e : ProcessEnv) :
    (e.discord_token = none →
      startup_trace e true = [StartupEvent.readDiscordToken, StartupEvent.mainPanicked] ∧
      StartupEvent.enterEventLoop ∉ startup_trace e true) ∧
    (e.discord_token ≠ none → run_checker_config e = CheckerConfig.panicked →
      StartupEvent.enterEventLoop ∈ startup_trace e true ∧
      StartupEvent.checkerConfigPanicked ∈ startup_trace e true) ∧
    (e.discord_token ≠ none → run_checker_config e ≠ CheckerConfig.panicked →
      StartupEvent.enterEventLoop ∈ startup_trace e true ∧
      StartupEvent.checkerLoopEntered ∈ startup_trace e true) := by
  refine ⟨?_, ?_, ?_⟩
  · intro h
    simp [startup_trace, h]
  · intro h hpc
    cases he : e.discord_token with
    | none => exact absurd he h
    | some t => simp [startup_trace, he, hpc]
  · intro h hpc
    cases he : e.discord_token with
    | none => exact absurd he h
    | some t =>
      cases hc : run_checker_config e with
      | panicked => exact absurd hc hpc
      | ok a b c => simp [startup_trace, he, hc]

/-- C3 witness for the amended claim: the checker-task panic of the concrete
environment with a missing `CHANNEL_ID` happens after the event loop is entered. -/
theorem C3_witness :
    StartupEvent.enterEventLoop ∈ startup_trace procEnvC3 true ∧
    StartupEvent.checkerConfigPanicked ∈ startup_trace procEnvC3 true :=
  (C3_amended_config_panic_location procEnvC3).2.1 (by decide) (by decide)

/-! ### Claim C6 -/

/-- Failure modes of the fetch step: transport error, non-2xx status, or a 2xx
response whose body fails to decode as a JSON item array. -/
def fetchFailed (env : TickEnv) : Prop :=
  env.fetch = FetchOutcome.transportError ∨
  (∃ st b, env.fetch = FetchOutcome.response st b ∧ statusIsSuccess st = false) ∨
  (∃ st, env.fetch = FetchOutcome.response st none ∧ statusIsSuccess st = true)

/-- C6: for every tick in which the fetch fails — network failure, non-2xx
status, or malformed JSON body — the tick ends immediately with the error
logged by the checker loop: no chat message is sent and mark-posted is not
called in that tick. -/
theorem C6_fetch_failure_ends_tick (env : TickEnv) (h : fetchFailed env) :
    (check_for_updates env).attempts = [] ∧
    (check_for_updates env).markPostedCalls = [] ∧
    ∃ e, (check_for_updates env).result = Except.error e ∧
      run_checker_tick_log env = [CheckerLog.errorDuringCheck e] := by
  rcases h with h | ⟨st, b, hf, hs⟩ | ⟨st, hf, hs⟩
  · exact ⟨by simp [check_for_updates, h], by simp [check_for_updates, h],
      TickError.fetchTransport, by simp [check_for_updates, h],
      by simp [run_checker_tick_log, check_for_updates, h]⟩
  · exact ⟨by simp [check_for_updates, hf, hs], by simp [check_for_updates, hf, hs],
      TickError.fetchBadStatus st, by simp [check_for_updates, hf, hs],
      by simp [run_checker_tick_log, check_for_updates, hf, hs]⟩
  · exact ⟨by simp [check_for_updates, hf, hs], by simp [check_for_updates, hf, hs],
      TickError.decodeError, by simp [check_for_updates, hf, hs],
      by simp [run_checker_tick_log, check_for_updates, hf, hs]⟩

/-- C6 witness at a concrete transport-level fetch failure. -/
theorem C6_witness :
    (check_for_updates envC6).attempts = [] ∧
    (check_for_updates envC6).markPostedCalls = [] ∧
    ∃ e, (check_for_updates envC6).result = Except.error e ∧
      run_checker_tick_log envC6 = [CheckerLog.errorDuringCheck e] :=
  C6_fetch_failure_ends_tick envC6 (Or.inl rfl)

/-! ### Claim C7 -/

/-- C7: for every item whose chat send fails, the failure is logged for that
item, its link is excluded from the acknowledgment batch, and every item — in
particular every subsequent one — is still formatted and its send attempted in
order: one item's failure never aborts delivery of the rest of the batch. -/
theorem C7_item_failure_isolated (env : TickEnv) (status : Nat) (items : List RssItem)
    (i : Nat) (hi : i < items.length)
    (hf : env.fetch = FetchOutcome.response status (some items))
    (hs : statusIsSuccess status = true)
    (hfail : env.sendOk i = false) :
    (check_for_updates env).attempts =
      (items.enum.map fun p => (formatItem p.2, env.sendOk p.1)) ∧
    LogEvent.errorSendFailed (items.get ⟨i, hi⟩).title ∈ (check_for_updates env).log ∧
    (check_for_updates env).markPostedCalls.flatten =
      ((items.enum.filter fun p => decide (p.1 ≠ i) && env.sendOk p.1).map
        fun p => p.2.link) := by
  have hne : items.isEmpty = false := by
    cases items with
    | nil => simp at hi
    | cons a rest => rfl
  refine ⟨?_, ?_, ?_⟩
  · rw [check_attempts_eq env status items hf hs, deliverFrom_attempts]
    rfl
  · have h0 : env.sendOk (0 + i) = false := by simpa using hfail
    exact check_log_of_deliver_log env status items hf hs hne _
      (deliverFrom_log_sendFailed env.sendOk items 0 i hi h0)
  · rw [check_markPostedCalls_flatten env status items hf hs, deliverFrom_postedLinks]
    have hcongr : List.filter (fun p => env.sendOk p.1) items.enum =
        List.filter (fun p => decide (p.1 ≠ i) && env.sendOk p.1) items.enum := by
      apply List.filter_congr
      intro p _
      by_cases hpi : p.1 = i
      · simp [hpi, hfail]
      · simp [hpi]
    show (List.filter (fun p => env.sendOk p.1) items.enum).map (fun p => p.2.link) = _
    rw [hcongr]

/-- C7 witness: three items, the second send failing, the other two delivered
and acknowledged. -/
theorem C7_witness :
    (check_for_updates envC7).attempts =
      ([itemW1, itemW2, itemW3].enum.map fun p => (formatItem p.2, envC7.sendOk p.1)) ∧
    LogEvent.errorSendFailed ([itemW1, itemW2, itemW3].get ⟨1, by decide⟩).title ∈
      (check_for_updates envC7).log ∧
    (check_for_updates envC7).markPostedCalls.flatten =
      (([itemW1, itemW2, itemW3].enum.filter
          fun p => decide (p.1 ≠ 1) && envC7.sendOk p.1).map fun p => p.2.link) :=
  C7_item_failure_isolated envC7 200 [itemW1, itemW2, itemW3] 1 (by decide) rfl
    (by decide) (by decide)

/-! ### Claim C8 -/

/-- C8: for every tick whose fetch returns an empty item sequence, no chat
message is sent and mark-posted is not called; and in every tick mark-posted is
called at most once, and only with a non-empty acknowledgment batch. -/
theorem C8_empty_fetch_and_single_ack (env : TickEnv) (status : Nat) :
    (env.fetch = FetchOutcome.response status (some []) → statusIsSuccess status = true →
      (check_for_updates env).attempts = [] ∧
      (check_for_updates env).markPostedCalls = [] ∧
      (check_for_updates env).result = Except.ok () ∧
      (check_for_updates env).log = [LogEvent.infoNoNewItems]) ∧
    (check_for_updates env).markPostedCalls.length ≤ 1 ∧
    (∀ l ∈ (check_for_updates env).markPostedCalls, l ≠ []) := by
  refine ⟨fun hf hs => by simp [check_for_updates, hf, hs], ?_⟩
  cases henv : env.fetch with
  | transportError => simp [check_for_updates, henv]
  | response st decoded =>
    cases hst : statusIsSuccess st with
    | false => simp [check_for_updates, henv, hst]
    | true =>
      cases decoded with
      | none => simp [check_for_updates, henv, hst]
      | some items =>
        cases hi : items.isEmpty with
        | true => simp [check_for_updates, henv, hst, hi]
        | false =>
          cases hp : (deliverFrom env.sendOk 0 items).postedLinks.isEmpty with
          | true => simp [check_for_updates, henv, hst, hi, hp]
          | false =>
            have hnil : (deliverFrom env.sendOk 0 items).postedLinks ≠ [] := by
              intro heq
              rw [heq] at hp
              simp at hp
            cases hmp : env.markPosted with
            | transportError => simpa [check_for_updates, henv, hst, hi, hp, hmp] using hnil
            | response st2 => simpa [check_for_updates, henv, hst, hi, hp, hmp] using hnil

/-- C8 witness at a concrete empty fetch response. -/
theorem C8_witness :
    ((check_for_updates envC8).attempts = [] ∧
      (check_for_updates envC8).markPostedCalls = [] ∧
      (check_for_updates envC8).result = Except.ok () ∧
      (check_for_updates envC8).log = [LogEvent.infoNoNewItems]) ∧
    (check_for_updates envC8).markPostedCalls.length ≤ 1 ∧
    (∀ l ∈ (check_for_updates envC8).markPostedCalls, l ≠ []) :=
  ⟨(C8_empty_fetch_and_single_ack envC8 200).1 rfl rfl,
   (C8_empty_fetch_and_single_ack envC8 200).2⟩

/-! ### Claim C9 -/

/-- C9: for every fetch response with a non-2xx HTTP status, the tick reports the
status error without the result depending on the response body in any way; a
non-2xx response with a malformed body therefore yields the backend-status
error, never a decode error — the status check takes precedence over decoding. -/
theorem C9_status_check_precedes_decode (env : TickEnv) (st : Nat)
    (b : Option (List RssItem))
    (hf : env.fetch = FetchOutcome.response st b)
    (hbad : statusIsSuccess st = false) :
    (check_for_updates env).result = Except.error (TickError.fetchBadStatus st) ∧
    (check_for_updates env).result ≠ Except.error TickError.decodeError ∧
    ∀ b2, check_for_updates { env with fetch := FetchOutcome.response st b2 } =
      check_for_updates env := by
  refine ⟨by simp [check_for_updates, hf, hbad], ?_, ?_⟩
  · simp [check_for_updates, hf, hbad]
  · intro b2
    simp [check_for_updates, hf, hbad]

/-- C9 witness at a concrete 404 response with an undecodable body. -/
theorem C9_witness :
    (check_for_updates envC9).result = Except.error (TickError.fetchBadStatus 404) ∧
    (check_for_updates envC9).result ≠ Except.error TickError.decodeError ∧
    ∀ b2, check_for_updates { envC9 with fetch := FetchOutcome.response 404 b2 } =
      check_for_updates envC9 :=
  C9_status_check_precedes_decode envC9 404 none rfl (by decide)

/-! ### Claim C10 -/

/-- C10: for every `pub_date` that parses successfully as RFC 2822 but denotes
an instant outside the range representable by the chat platform's timestamp
type, the formatter falls back to the current wall-clock time instead of the
parsed instant (the total fallback raises no panic): the fallback to now is not
limited to parse failures. -/
theorem C10_out_of_range_instant_falls_back (pd : String) (t : Int)
    (hp : parse_from_rfc2822 pd = some t)
    (hout : t < timestampMinSecs ∨ timestampMaxSecs < t) :
    itemTimestamp pd = Timestamp.now ∧ Timestamp.now ≠ Timestamp.instant t := by
  have hnot : (timestampMinSecs ≤ t ∧ t ≤ timestampMaxSecs) = False := by
    rcases hout with h | h
    · simp only [eq_iff_iff, iff_false]
      intro hc
      omega
    · simp only [eq_iff_iff, iff_false]
      intro hc
      omega
  constructor
  · simp [itemTimestamp, hp, Timestamp.from_unix_timestamp, hnot]
  · simp

/-- C10 witness: the year-99999 date parses to an instant beyond the timestamp
range and the formatter produces now. -/
theorem C10_witness :
    itemTimestamp "01 Jan 99999 00:00:00 +0000" = Timestamp.now ∧
    Timestamp.now ≠ Timestamp.instant 3093496444800 :=
  C10_out_of_range_instant_falls_back "01 Jan 99999 00:00:00 +0000" 3093496444800
    (by decide) (Or.inr (by decide))

end GoNews
